import Mathlib

/-!
# Verification of the conversational-agent LangChain backend

Shallow embedding of `agent/backend/aleph_alpha_service.py` and
`agent/backend/LLMStrategy.py`, together with proofs of the specified
properties of the QA orchestration, explanation extraction, search
validation, strategy selection and text-ingestion code.

External collaborators (the Aleph Alpha client, the Jinja prompt renderer
`generate_prompt`, and the Qdrant vector store) are modelled as function
parameters; the control flow, validation and data handling of the
code of the repository itself is translated faithfully.
-/

namespace AgentSpec

/-- Python exception kinds that the embedded code can raise.
`valueError msg` is a `ValueError` whose `args[0]` is `msg`;
`otherError` is any exception that is not a `ValueError`;
`unboundLocal` is an `UnboundLocalError` for the named local variable;
`indexError` is an `IndexError`. -/
inductive PyErr where
  | valueError (msg : String)
  | otherError (msg : String)
  | unboundLocal (name : String)
  | indexError (msg : String)
  deriving DecidableEq, Repr

/-- A Langchain document: `page_content` and its metadata (kept opaque as a
string, as the code only passes it through). -/
structure LDoc where
  page_content : String
  metadata : String
  deriving DecidableEq, Repr

/-- The metadata component returned by `qa_aleph_alpha`: either the single
metadata object of the single document or the list of all the metadata. -/
inductive Meta where
  | single (m : String)
  | list (ms : List String)
  deriving DecidableEq, Repr

/-- Python `sep.join(texts)` (used as `" ".join(texts)` in
`qa_aleph_alpha`). -/
def pyJoin (sep : String) : List String → String
  | [] => ""
  | [t] => t
  | t :: rest => t ++ sep ++ pyJoin sep rest

/-- The summarization loop of `qa_aleph_alpha` (lines 267-269):
`text = ""` then `for t in texts: text += summarize_text_aleph_alpha(t, token)`.
The provider function `summarize` is scripted by call index; the result is paired
with the index after the loop (i.e. the total number of summarize calls
made so far). A failing summarize call propagates. -/
def summarizeAll (summarize : Nat → String → Except PyErr String) :
    Nat → String → List String → (Except PyErr String) × Nat
  | k, acc, [] => (Except.ok acc, k)
  | k, acc, t :: rest =>
    match summarize k t with
    | Except.ok s => summarizeAll summarize (k + 1) (acc ++ s) rest
    | Except.error e => (Except.error e, k + 1)

/-- The document-aggregation phase of `qa_aleph_alpha` (lines 257-274):
one document is used verbatim; otherwise the contents are either each
summarized and concatenated (when `summarization`) or joined with `" "`.
Returns the aggregated text and metadata together with the number of
summarize calls made. -/
def aggregate (summarize : Nat → String → Except PyErr String)
    (documents : List (LDoc × ℚ)) (summarization : Bool) :
    (Except PyErr (String × Meta)) × Nat :=
  match documents with
  | [d] => (Except.ok (d.1.page_content, Meta.single d.1.metadata), 0)
  | _ =>
    let texts := documents.map (fun doc => doc.1.page_content)
    let meta := Meta.list (documents.map (fun doc => doc.1.metadata))
    if summarization then
      match summarizeAll summarize 0 "" texts with
      | (Except.ok text, n) => (Except.ok (text, meta), n)
      | (Except.error e, n) => (Except.error e, n)
    else
      (Except.ok (pyJoin " " texts, meta), 0)

/-- The function `qa_aleph_alpha` (lines 243-299). Here `gp text query` models
`generate_prompt("qa.j2", text=text, query=query)`; `complete k prompt`
models the `k`-th call of `send_completion_request(prompt, token)` and
`summarize k text` the `k`-th call of `summarize_text_aleph_alpha`.
Returns the result (answer, prompt, metadata) or the raised exception,
together with the number of completion calls and of summarize calls.

The `try`/`except ValueError` block only handles `args[0] == "PROMPT_TOO_LONG"`;
any other caught `ValueError` falls through to `return answer` where
`answer` was never assigned, which raises `UnboundLocalError`. Exceptions
that are not `ValueError` are not caught and propagate. -/
def qa_aleph_alpha (gp : String → String → String)
    (complete : Nat → String → Except PyErr String)
    (summarize : Nat → String → Except PyErr String)
    (documents : List (LDoc × ℚ)) (query : String) (summarization : Bool) :
    (Except PyErr (String × String × Meta)) × Nat × Nat :=
  match aggregate summarize documents summarization with
  | (Except.error e, ns) => (Except.error e, 0, ns)
  | (Except.ok (text, meta), ns) =>
    let prompt := gp text query
    match complete 0 prompt with
    | Except.ok answer => (Except.ok (answer, prompt, meta), 1, ns)
    | Except.error e =>
      match e with
      | PyErr.valueError msg =>
        if msg = "PROMPT_TOO_LONG" then
          match summarize ns text with
          | Except.error e2 => (Except.error e2, 1, ns + 1)
          | Except.ok short_text =>
            let prompt2 := gp short_text query
            match complete 1 prompt2 with
            | Except.ok answer => (Except.ok (answer, prompt2, meta), 2, ns + 1)
            | Except.error e2 => (Except.error e2, 2, ns + 1)
        else
          (Except.error (PyErr.unboundLocal "answer"), 1, ns)
      | _ => (Except.error e, 1, ns)

/-- The function `search_documents_aleph_alpha` (lines 215-240). Here `store query amount`
models `get_db_connection(...).similarity_search_with_score(query, k=amount)`
(one network interaction); its failure message is wrapped as
`Exception(f"Failed to search documents: {e}")`. The second component
counts vector-store calls made. -/
def search_documents_aleph_alpha (aleph_alpha_token query : String) (amount : Int)
    (store : String → Int → Except String (List (LDoc × ℚ))) :
    (Except PyErr (List (LDoc × ℚ))) × Nat :=
  if aleph_alpha_token = "" then
    (Except.error (PyErr.valueError "Token cannot be None or empty."), 0)
  else if query = "" then
    (Except.error (PyErr.valueError "Query cannot be None or empty."), 0)
  else if amount < 1 then
    (Except.error (PyErr.valueError "Amount must be greater than 0."), 0)
  else
    match store query amount with
    | Except.ok docs => (Except.ok docs, 1)
    | Except.error e =>
      (Except.error (PyErr.otherError ("Failed to search documents: " ++ e)), 1)

/-- One item of the explanation response of the provider: a character offset,
a length, and an attribution score (the float score modelled as ℚ). -/
structure ExpItem where
  start : Nat
  length : Nat
  score : ℚ
  deriving DecidableEq, Repr

/-- Python slice `s[a:b]` for `0 ≤ a, b` (out-of-range bounds clamp). -/
def pySlice (s : String) (a b : Nat) : String :=
  ((s.data.drop a).take (b - a)).asString

/-- The span `prompt[item.start : item.start + item.length]` computed in
`explain_completion` (lines 329-331). -/
def spanOf (prompt : String) (it : ExpItem) : String :=
  pySlice prompt it.start (it.start + it.length)

/-- Round a rational to the nearest integer, ties to even (the rounding mode
of `np.round`). -/
def rndHalfEven (q : ℚ) : ℤ :=
  let fl : ℤ := q.floor
  let frac : ℚ := q - (fl : ℚ)
  if frac < 1/2 then fl
  else if 1/2 < frac then fl + 1
  else if fl % 2 = 0 then fl else fl + 1

/-- The call `np.round(item.score, decimals=3)` modelled on ℚ: round to
3 decimal places. -/
def round3 (q : ℚ) : ℚ := (rndHalfEven (1000 * q) : ℚ) / 1000

/-- Python dict assignment `result[k] = v`: update the value in place when
the key is present, otherwise append the new entry at the end. -/
def dictInsert (m : List (String × ℚ)) (k : String) (v : ℚ) : List (String × ℚ) :=
  match m with
  | [] => [(k, v)]
  | (k', v') :: rest =>
    if k' = k then (k', v) :: rest else (k', v') :: dictInsert rest k v

/-- Lookup in the ordered mapping (Python `result[k]` / `k in result`). -/
def dictGet (m : List (String × ℚ)) (k : String) : Option ℚ :=
  match m with
  | [] => none
  | (k', v) :: rest => if k' = k then some v else dictGet rest k

/-- The keys of the ordered mapping, in insertion order. -/
def keysOf (m : List (String × ℚ)) : List String := m.map Prod.fst

/-- Membership of a string in a list of keys, as a boolean. -/
def hasKey (K : List String) (s : String) : Bool := K.any (fun y => s == y)

/-- Remove duplicates from a list, keeping the first occurrence of each
element (the key order of a Python dict built by repeated assignment). -/
def dedupFirst : List String → List String
  | [] => []
  | x :: rest => x :: (dedupFirst rest).filter (fun y => y != x)

/-- The filtering loop of `explain_completion` (lines 326-332):
`for item in explanations: if not prompt[start:end] in template:
result[prompt[start:end]] = np.round(item.score, decimals=3)`.
The commented-out sort (line 322) is not executed, so items are processed
in provider order. -/
def explainLoop (prompt template : String) :
    List ExpItem → List (String × ℚ) → List (String × ℚ)
  | [], acc => acc
  | it :: rest, acc =>
    if (spanOf prompt it).data <:+: template.data then
      explainLoop prompt template rest acc
    else
      explainLoop prompt template rest
        (dictInsert acc (spanOf prompt it) (round3 it.score))

/-- The function `explain_completion` (lines 302-334). Here `provider prompt output token`
models `client.explain(...)` yielding the explanation items; `template`
is `generate_prompt("qa.j2", text="", language="de")` (the external
output of the renderer on empty content). The function performs no input
validation and always makes exactly one provider call; the second
component counts provider calls. -/
def explain_completion (prompt output tok : String)
    (provider : String → String → String → List ExpItem)
    (template : String) :
    (Except PyErr (List (String × ℚ))) × Nat :=
  let explanations := provider prompt output tok
  (Except.ok (explainLoop prompt template explanations []), 1)

/-- A span is kept for key `k` when it equals `k` and is not template
boilerplate (not a substring of the empty-content rendering). -/
def keptWith (prompt template k : String) (it : ExpItem) : Prop :=
  spanOf prompt it = k ∧ ¬ ((spanOf prompt it).data <:+: template.data)

instance keptWithDec (prompt template k : String) (it : ExpItem) :
    Decidable (keptWith prompt template k it) :=
  inferInstanceAs
    (Decidable (spanOf prompt it = k ∧ ¬ ((spanOf prompt it).data <:+: template.data)))

/-- The last item of the provider response whose span equals `k` and is
kept; its score is the one a Python dict retains for the key `k`. -/
def lastKept (prompt template k : String) : List ExpItem → Option ExpItem
  | [] => none
  | it :: rest =>
    match lastKept prompt template k rest with
    | some r => some r
    | none => if keptWith prompt template k it then some it else none

/-- The spans of the provider response that survive the boilerplate filter,
in provider order (with duplicates). -/
def keptSpans (prompt template : String) (items : List ExpItem) : List String :=
  (items.map (spanOf prompt)).filter
    (fun s => !(decide (s.data <:+: template.data)))

/-- Python `text.split(seperator)`: for a non-empty separator this is
`String.splitOn`; an empty separator raises `ValueError("empty separator")`. -/
def pySplit (text sep : String) : Except PyErr (List String) :=
  if sep = "" then Except.error (PyErr.valueError "empty separator")
  else Except.ok (text.splitOn sep)

/-- The function `embedd_text_aleph_alpha` (lines 141-167), up to the arguments passed to
`vector_db.add_texts`: split the text at the separator, pop a leading and a
trailing empty segment (`text_list[0]` / `text_list[-1]` raise `IndexError`
on an empty list), and build the `file_name + "_" + i` metadata list.
Returns the `(texts, metadatas)` handed to the vector store. -/
def embedd_text_aleph_alpha (text file_name seperator : String) :
    Except PyErr (List String × List String) :=
  match pySplit text seperator with
  | Except.error e => Except.error e
  | Except.ok text_list =>
    match text_list with
    | [] => Except.error (PyErr.indexError "list index out of range")
    | x :: rest =>
      let l1 := if x = "" then rest else x :: rest
      match l1.getLast? with
      | none => Except.error (PyErr.indexError "list index out of range")
      | some last =>
        let l2 := if last = "" then l1.dropLast else l1
        let metadata_list :=
          (List.range l2.length).map (fun i => file_name ++ "_" ++ toString i)
        Except.ok (l2, metadata_list)

/-- Modelled from the spec: the `LLMProvider` enum of
`agent/data_model/request_data_model.py` (not under `src/`), with the
registered identifiers {aleph-alpha, openai, gpt4all, cohere, ollama}. -/
inductive LLMProvider where
  | aleph_alpha
  | openai
  | gpt4all
  | cohere
  | ollama
  deriving DecidableEq, Repr

/-- Modelled from the spec: the string value of each provider identifier
(the enum is a str-enum, so dictionary lookup by the raw string succeeds). -/
def providerKey : LLMProvider → String
  | .aleph_alpha => "aleph-alpha"
  | .openai => "openai"
  | .gpt4all => "gpt4all"
  | .cohere => "cohere"
  | .ollama => "ollama"

/-- Modelled from the spec: a constructed provider service client
(`AlephAlphaService(collection_name=...)` etc.; the classes are not under
`src/`), recording which provider class was instantiated and with which
collection name. -/
structure ServiceInstance where
  provider : LLMProvider
  collection_name : String
  deriving DecidableEq, Repr

/-- The `LLMStrategyFactory._strategies` registry
(`LLMStrategy.py` lines 27-33) as an association list. -/
def strategies : List (String × LLMProvider) :=
  [("aleph-alpha", .aleph_alpha), ("openai", .openai), ("gpt4all", .gpt4all),
   ("cohere", .cohere), ("ollama", .ollama)]

/-- The factory method `LLMStrategyFactory.get_strategy` (`LLMStrategy.py` lines 35-58):
dictionary lookup of `strategy_type`; `None` raises
`ValueError("Unknown Strategy Type")`, otherwise the matched class is
instantiated with the collection name (the token is not forwarded). -/
def get_strategy (strategy_type token collection_name : String) :
    Except PyErr ServiceInstance :=
  match strategies.find? (fun p => p.1 == strategy_type) with
  | none => Except.error (PyErr.valueError "Unknown Strategy Type")
  | some p => Except.ok ⟨p.2, collection_name⟩

/-! ## Helper lemmas -/

/-- Splitting the empty string yields one empty segment, matching the
Python behaviour of `"".split(sep)` for a non-empty separator. -/
theorem splitOn_empty_left (sep : String) : "".splitOn sep = [""] := by
  by_cases h : sep = ""
  · subst h; rfl
  · have hb : (sep == "") = false := beq_eq_false_iff_ne.mpr h
    rw [String.splitOn, hb]
    simp only [Bool.false_eq_true, if_false]
    rw [String.splitOnAux]
    rw [if_pos (by decide : ("".atEnd 0) = true)]
    rfl

theorem dictGet_dictInsert_self (m : List (String × ℚ)) (k : String) (v : ℚ) :
    dictGet (dictInsert m k v) k = some v := by
  induction m with
  | nil => simp [dictInsert, dictGet]
  | cons p rest ih =>
    obtain ⟨k', v'⟩ := p
    by_cases h : k' = k
    · subst h; simp [dictInsert, dictGet]
    · simp [dictInsert, dictGet, h, ih]

theorem dictGet_dictInsert_ne (m : List (String × ℚ)) (k k2 : String) (v : ℚ)
    (h : k2 ≠ k) : dictGet (dictInsert m k v) k2 = dictGet m k2 := by
  induction m with
  | nil => simp [dictInsert, dictGet, Ne.symm h]
  | cons p rest ih =>
    obtain ⟨k', v'⟩ := p
    by_cases hk : k' = k
    · subst hk
      simp [dictInsert, dictGet, Ne.symm h]
    · by_cases hk2 : k' = k2
      · subst hk2; simp [dictInsert, dictGet, hk]
      · simp [dictInsert, dictGet, hk, hk2, ih]

/-- The value stored under key `k` after the filtering loop is the rounded
score of the last kept item whose span is `k` (later duplicates overwrite
earlier ones, a property of Python dict assignment). -/
theorem explainLoop_dictGet (prompt template k : String) (items : List ExpItem) :
    ∀ acc : List (String × ℚ),
    dictGet (explainLoop prompt template items acc) k
      = match lastKept prompt template k items with
        | some it => some (round3 it.score)
        | none => dictGet acc k := by
  induction items with
  | nil => intro acc; rfl
  | cons it rest ih =>
    intro acc
    by_cases hinf : (spanOf prompt it).data <:+: template.data
    · have hkept : ¬ keptWith prompt template k it := fun h => h.2 hinf
      simp only [explainLoop, if_pos hinf, lastKept, ih]
      cases lastKept prompt template k rest with
      | some r => rfl
      | none => simp [hkept]
    · by_cases hk : spanOf prompt it = k
      · have hkept : keptWith prompt template k it := ⟨hk, hinf⟩
        simp only [explainLoop, if_neg hinf, lastKept, ih]
        cases lastKept prompt template k rest with
        | some r => rfl
        | none => simp [hkept, hk, dictGet_dictInsert_self]
      · have hkept : ¬ keptWith prompt template k it := fun h => hk h.1
        simp only [explainLoop, if_neg hinf, lastKept, ih]
        cases lastKept prompt template k rest with
        | some r => rfl
        | none => simp [hkept, dictGet_dictInsert_ne _ _ _ _ (Ne.symm hk)]

theorem lastKept_eq_none (prompt template k : String) (items : List ExpItem)
    (h : ∀ it ∈ items, ¬ keptWith prompt template k it) :
    lastKept prompt template k items = none := by
  induction items with
  | nil => rfl
  | cons it rest ih =>
    have hrest := ih (fun x hx => h x (List.mem_cons_of_mem _ hx))
    simp only [lastKept, hrest]
    simp [h it (List.mem_cons_self it rest)]

theorem lastKept_isSome (prompt template k : String) (items : List ExpItem)
    (it : ExpItem) (hmem : it ∈ items) (hk : keptWith prompt template k it) :
    (lastKept prompt template k items).isSome = true := by
  induction items with
  | nil => simp at hmem
  | cons x rest ih =>
    rcases List.mem_cons.mp hmem with h | h
    · subst h
      simp only [lastKept]
      cases lastKept prompt template k rest with
      | some r => rfl
      | none => simp [hk]
    · simp only [lastKept]
      cases hr : lastKept prompt template k rest with
      | some r => rfl
      | none => rw [hr] at ih; simp at ih; exact absurd h ih

theorem lastKept_of_unique (prompt template k : String) (items : List ExpItem)
    (it : ExpItem) (hmem : it ∈ items) (hk : keptWith prompt template k it)
    (huniq : ∀ it2 ∈ items, keptWith prompt template k it2 → it2 = it) :
    lastKept prompt template k items = some it := by
  induction items with
  | nil => simp at hmem
  | cons x rest ih =>
    by_cases hr : it ∈ rest
    · have := ih hr (fun y hy hky => huniq y (List.mem_cons_of_mem _ hy) hky)
      simp only [lastKept, this]
    · rcases List.mem_cons.mp hmem with h | h
      · subst h
        have hnone : lastKept prompt template k rest = none :=
          lastKept_eq_none prompt template k rest
            (fun y hy hky => hr (huniq y (List.mem_cons_of_mem _ hy) hky ▸ hy))
        simp only [lastKept, hnone]
        simp [hk]
      · exact absurd h hr

theorem hasKey_keysOf_dictInsert (m : List (String × ℚ)) (k : String) (v : ℚ) :
    keysOf (dictInsert m k v)
      = if hasKey (keysOf m) k then keysOf m else keysOf m ++ [k] := by
  induction m with
  | nil => simp [dictInsert, keysOf, hasKey]
  | cons p rest ih =>
    obtain ⟨k', v'⟩ := p
    by_cases h : k' = k
    · subst h; simp [dictInsert, keysOf, hasKey]
    · have hne : (k == k') = false := beq_eq_false_iff_ne.mpr (Ne.symm h)
      simp only [dictInsert, if_neg h, keysOf, List.map_cons, hasKey, List.any_cons, hne,
        Bool.false_or]
      simp only [keysOf, hasKey] at ih
      rw [ih]
      by_cases hh : (rest.map Prod.fst).any (fun y => k == y) = true
      · simp [hh]
      · simp only [Bool.not_eq_true] at hh
        simp [hh]

theorem filter_filter_of_false (p : String → Bool) (x : String) (hp : p x = false)
    (l : List String) : (l.filter (fun y => y != x)).filter p = l.filter p := by
  induction l with
  | nil => rfl
  | cons a l ih =>
    by_cases ha : a = x
    · subst ha
      simp [List.filter, hp, ih]
    · have hne : (a != x) = true := by simp [ha]
      simp only [List.filter, hne]
      cases hpa : p a <;> simp [hpa, ih]

theorem dedupFirst_filter (p : String → Bool) (l : List String) :
    dedupFirst (l.filter p) = (dedupFirst l).filter p := by
  induction l with
  | nil => rfl
  | cons x rest ih =>
    cases hx : p x with
    | true =>
      have hstep : List.filter p (x :: rest) = x :: rest.filter p := by
        simp [List.filter, hx]
      rw [hstep]
      simp only [dedupFirst, ih, List.filter, hx]
      rw [List.filter_comm]
    | false =>
      have hstep : List.filter p (x :: rest) = rest.filter p := by
        simp [List.filter, hx]
      rw [hstep, ih]
      simp only [dedupFirst, List.filter, hx]
      rw [filter_filter_of_false p x hx]

theorem hasKey_append_singleton (K : List String) (k s : String) :
    hasKey (K ++ [k]) s = (hasKey K s || (s == k)) := by
  simp [hasKey, List.any_append]

/-- The keys of the mapping built by the filtering loop are the kept spans
in first-occurrence provider order, appended to the keys already present. -/
theorem explainLoop_keysOf (prompt template : String) (items : List ExpItem) :
    ∀ acc : List (String × ℚ),
    keysOf (explainLoop prompt template items acc)
      = keysOf acc ++ dedupFirst ((keptSpans prompt template items).filter
          (fun s => !(hasKey (keysOf acc) s))) := by
  induction items with
  | nil => intro acc; simp [keptSpans, dedupFirst, explainLoop]
  | cons it rest ih =>
    intro acc
    by_cases hinf : (spanOf prompt it).data <:+: template.data
    · have hspans : keptSpans prompt template (it :: rest)
          = keptSpans prompt template rest := by
        simp [keptSpans, List.filter, hinf]
      simp only [explainLoop, if_pos hinf, hspans, ih]
    · have hspans : keptSpans prompt template (it :: rest)
          = spanOf prompt it :: keptSpans prompt template rest := by
        simp [keptSpans, List.filter, hinf]
      by_cases hmem : hasKey (keysOf acc) (spanOf prompt it) = true
      · have hkeys : keysOf (dictInsert acc (spanOf prompt it) (round3 it.score))
            = keysOf acc := by
          rw [hasKey_keysOf_dictInsert, if_pos hmem]
        simp only [explainLoop, if_neg hinf, ih, hkeys, hspans]
        simp [List.filter, hmem]
      · have hmem' : hasKey (keysOf acc) (spanOf prompt it) = false := by
          simpa using hmem
        have hkeys : keysOf (dictInsert acc (spanOf prompt it) (round3 it.score))
            = keysOf acc ++ [spanOf prompt it] := by
          rw [hasKey_keysOf_dictInsert, hmem']
          simp
        simp only [explainLoop, if_neg hinf, ih, hkeys, hspans]
        rw [List.append_assoc]
        congr 1
        have hfilter : (keptSpans prompt template rest).filter
              (fun s => !(hasKey (keysOf acc ++ [spanOf prompt it]) s))
            = ((keptSpans prompt template rest).filter
                (fun s => !(hasKey (keysOf acc) s))).filter
                (fun s => s != spanOf prompt it) := by
          rw [List.filter_filter]
          apply List.filter_congr
          intro s _
          rw [hasKey_append_singleton]
          simp [Bool.not_or, bne, Bool.and_comm]
        rw [hfilter, dedupFirst_filter]
        simp only [List.filter, hmem', Bool.not_false]
        rfl

/-! ## Claim theorems -/

/-- C1: the claim says every completion error other than the
prompt-too-long condition propagates to the caller of `qa_aleph_alpha`
unchanged. The code violates this: a `ValueError` whose message is not
`"PROMPT_TOO_LONG"` (here, the empty-completion error raised by
`send_completion_request`) is caught, the fallback branch is skipped, and
the function falls through to `return answer` with `answer` unassigned,
raising `UnboundLocalError` instead of the original error. -/
theorem qa_valueError_swallowed :
    qa_aleph_alpha (fun t q => t ++ q)
      (fun _ _ => Except.error (PyErr.valueError "Completion is empty."))
      (fun _ t => Except.ok t)
      [(⟨"doc", "m"⟩, 0)] "q" false
      = (Except.error (PyErr.unboundLocal "answer"), 1, 0) := rfl

/-- C2: when the first completion call fails with the provider-signaled
prompt-too-long condition, the orchestrator summarizes the aggregated text
exactly once, re-renders the prompt with the shortened text, calls the
completion exactly one more time (two completion calls in total), and
returns the second result with the re-rendered prompt; a failure of the
second call propagates with no further retry. -/
theorem qa_long_prompt_fallback (gp : String → String → String)
    (complete summarize : Nat → String → Except PyErr String)
    (documents : List (LDoc × ℚ)) (query : String) (summarization : Bool)
    (text : String) (meta : Meta) (ns : Nat) (short_text : String)
    (hagg : aggregate summarize documents summarization
      = (Except.ok (text, meta), ns))
    (h1 : complete 0 (gp text query)
      = Except.error (PyErr.valueError "PROMPT_TOO_LONG"))
    (hs : summarize ns text = Except.ok short_text) :
    qa_aleph_alpha gp complete summarize documents query summarization
      = (match complete 1 (gp short_text query) with
         | Except.ok answer =>
             (Except.ok (answer, gp short_text query, meta), 2, ns + 1)
         | Except.error e2 => (Except.error e2, 2, ns + 1)) := by
  unfold qa_aleph_alpha
  rw [hagg]
  simp only [h1, hs]
  rfl

/-- Witness for C2 at a concrete scripted provider: the completion fails
with the prompt-too-long condition on call 0 and succeeds on call 1. -/
theorem qa_long_prompt_fallback_witness :
    qa_aleph_alpha (fun t q => t ++ q)
      (fun k _ => if k = 0
        then Except.error (PyErr.valueError "PROMPT_TOO_LONG")
        else Except.ok "answer2")
      (fun _ _ => Except.ok "short")
      [(⟨"doc", "m"⟩, 0)] "q" false
      = (Except.ok ("answer2", "short" ++ "q", Meta.single "m"), 2, 1) := by
  have h := qa_long_prompt_fallback (fun t q => t ++ q)
    (fun k _ => if k = 0
      then Except.error (PyErr.valueError "PROMPT_TOO_LONG")
      else Except.ok "answer2")
    (fun _ _ => Except.ok "short")
    [(⟨"doc", "m"⟩, 0)] "q" false "doc" (Meta.single "m") 0 "short"
    rfl rfl rfl
  exact h.trans rfl

/-- C5: `search_documents_aleph_alpha` with an empty token, an empty query
or an amount below 1 fails with a `ValueError` before any vector-store or
provider call is made (the call counter stays 0). -/
theorem search_documents_validation (tok query : String) (amount : Int)
    (store : String → Int → Except String (List (LDoc × ℚ)))
    (h : tok = "" ∨ query = "" ∨ amount < 1) :
    (search_documents_aleph_alpha tok query amount store).2 = 0
    ∧ ∃ msg, (search_documents_aleph_alpha tok query amount store).1
        = Except.error (PyErr.valueError msg) := by
  unfold search_documents_aleph_alpha
  by_cases ht : tok = ""
  · exact ⟨by simp [ht], "Token cannot be None or empty.", by simp [ht]⟩
  · by_cases hq : query = ""
    · exact ⟨by simp [ht, hq], "Query cannot be None or empty.", by simp [ht, hq]⟩
    · have ha : amount < 1 := by tauto
      exact ⟨by simp [ht, hq, ha], "Amount must be greater than 0.",
        by simp [ht, hq, ha]⟩

/-- Witness for C5 at an empty token. -/
theorem search_documents_validation_witness :
    (search_documents_aleph_alpha "" "query" 5 (fun _ _ => Except.ok [])).2 = 0
    ∧ ∃ msg, (search_documents_aleph_alpha "" "query" 5
        (fun _ _ => Except.ok [])).1 = Except.error (PyErr.valueError msg) :=
  search_documents_validation "" "query" 5 (fun _ _ => Except.ok []) (Or.inl rfl)

/-- C6: with a document list of length exactly one, the aggregated text is
the page content of that document verbatim, the metadata is the metadata
object of that document, and zero summarize calls are made during
aggregation, regardless of the summarization flag; when the completion
succeeds, `qa_aleph_alpha` returns the prompt rendered from the verbatim
content together with that metadata. -/
theorem qa_single_document (gp : String → String → String)
    (complete summarize : Nat → String → Except PyErr String)
    (d : LDoc × ℚ) (query : String) (summarization : Bool) :
    aggregate summarize [d] summarization
      = (Except.ok (d.1.page_content, Meta.single d.1.metadata), 0)
    ∧ ∀ ans, complete 0 (gp d.1.page_content query) = Except.ok ans →
        qa_aleph_alpha gp complete summarize [d] query summarization
          = (Except.ok (ans, gp d.1.page_content query,
              Meta.single d.1.metadata), 1, 0) := by
  refine ⟨rfl, fun ans h => ?_⟩
  unfold qa_aleph_alpha
  have hagg : aggregate summarize [d] summarization
      = (Except.ok (d.1.page_content, Meta.single d.1.metadata), 0) := rfl
  rw [hagg]
  simp only [h]

/-- Witness for C6 at a concrete document and providers. -/
theorem qa_single_document_witness :
    qa_aleph_alpha (fun t q => t ++ q)
      (fun _ _ => Except.ok "ans") (fun _ t => Except.ok t)
      [(⟨"doc", "m"⟩, 0)] "q" true
      = (Except.ok ("ans", "doc" ++ "q", Meta.single "m"), 1, 0) :=
  (qa_single_document (fun t q => t ++ q)
    (fun _ _ => Except.ok "ans") (fun _ t => Except.ok t)
    (⟨"doc", "m"⟩, 0) "q" true).2 "ans" rfl

/-- C7: with two or more documents and summarization disabled, the
aggregated text is the page contents joined in order with a single-space
separator (for two documents, `content1 ++ " " ++ content2`), the metadata
is the list of the documents, in order, and no summarize call is made;
when the completion succeeds, `qa_aleph_alpha` returns the prompt rendered
from the joined text together with that metadata list. -/
theorem qa_multi_document_join (gp : String → String → String)
    (complete summarize : Nat → String → Except PyErr String)
    (d1 d2 : LDoc × ℚ) (ds : List (LDoc × ℚ)) (query : String) :
    aggregate summarize (d1 :: d2 :: ds) false
      = (Except.ok (pyJoin " " ((d1 :: d2 :: ds).map (fun d => d.1.page_content)),
          Meta.list ((d1 :: d2 :: ds).map (fun d => d.1.metadata))), 0)
    ∧ pyJoin " " [d1.1.page_content, d2.1.page_content]
        = d1.1.page_content ++ " " ++ d2.1.page_content
    ∧ ∀ ans, complete 0
          (gp (pyJoin " " ((d1 :: d2 :: ds).map (fun d => d.1.page_content))) query)
          = Except.ok ans →
        qa_aleph_alpha gp complete summarize (d1 :: d2 :: ds) query false
          = (Except.ok (ans,
              gp (pyJoin " " ((d1 :: d2 :: ds).map (fun d => d.1.page_content))) query,
              Meta.list ((d1 :: d2 :: ds).map (fun d => d.1.metadata))), 1, 0) := by
  refine ⟨rfl, rfl, fun ans h => ?_⟩
  unfold qa_aleph_alpha
  have hagg : aggregate summarize (d1 :: d2 :: ds) false
      = (Except.ok (pyJoin " " ((d1 :: d2 :: ds).map (fun d => d.1.page_content)),
          Meta.list ((d1 :: d2 :: ds).map (fun d => d.1.metadata))), 0) := rfl
  rw [hagg]
  simp only [h]

/-- Witness for C7 at two concrete documents. -/
theorem qa_multi_document_join_witness :
    qa_aleph_alpha (fun t q => t ++ q)
      (fun _ _ => Except.ok "ans") (fun _ t => Except.ok t)
      [(⟨"c1", "m1"⟩, 0), (⟨"c2", "m2"⟩, 0)] "q" false
      = (Except.ok ("ans", ("c1" ++ " " ++ "c2") ++ "q",
          Meta.list ["m1", "m2"]), 1, 0) := by
  have h := (qa_multi_document_join (fun t q => t ++ q)
    (fun _ _ => Except.ok "ans") (fun _ t => Except.ok t)
    (⟨"c1", "m1"⟩, 0) (⟨"c2", "m2"⟩, 0) [] "q").2.2 "ans" rfl
  exact h.trans (by rfl)

/-- C3 counterexample: the claim says the mapping returned by
`explain_completion` lists its kept spans in descending score order. The
sorting line in the code is commented out, so a provider response whose
kept spans arrive in ascending score order is returned in exactly that
ascending order: the first entry has the strictly smaller score. -/
theorem explain_completion_not_score_sorted :
    explain_completion "ab" "out" "tok"
        (fun _ _ _ => [⟨0, 1, (1:ℚ)/10⟩, ⟨1, 1, (9:ℚ)/10⟩]) "zz"
      = (Except.ok [("a", round3 ((1:ℚ)/10)), ("b", round3 ((9:ℚ)/10))], 1)
    ∧ round3 ((1:ℚ)/10) < round3 ((9:ℚ)/10) := by
  constructor
  · have h1 : spanOf "ab" ⟨0, 1, (1:ℚ)/10⟩ = "a" := by decide
    have h2 : spanOf "ab" ⟨1, 1, (9:ℚ)/10⟩ = "b" := by decide
    show (Except.ok (explainLoop "ab" "zz" [⟨0, 1, (1:ℚ)/10⟩, ⟨1, 1, (9:ℚ)/10⟩] []),
        1) = _
    simp only [explainLoop, h1, h2]
    rw [if_neg (by decide), if_neg (by decide)]
    simp only [dictInsert]
    rw [if_neg (by decide)]
  · norm_num [round3, rndHalfEven, Rat.floor]

/-- C3 amended: `explain_completion` returns the kept spans in provider
response order (first-occurrence insertion order), not re-sorted by score:
the key sequence of the returned mapping equals the deduplicated sequence
of kept spans in the order the provider returned them. -/
theorem explain_completion_provider_order (prompt output tok template : String)
    (provider : String → String → String → List ExpItem) :
    explain_completion prompt output tok provider template
      = (Except.ok (explainLoop prompt template (provider prompt output tok) []), 1)
    ∧ keysOf (explainLoop prompt template (provider prompt output tok) [])
      = dedupFirst (keptSpans prompt template (provider prompt output tok)) := by
  refine ⟨rfl, ?_⟩
  have h := explainLoop_keysOf prompt template (provider prompt output tok) []
  simpa [keysOf, hasKey] using h

/-- C4: the claim (and the docstring of `explain_completion`) says an empty
prompt, output or token fails with an invalid-input error before any
provider call. The body performs no such validation: on every one of the
three empty inputs the provider is called exactly once (call count 1, not
0) and the call completes normally instead of raising `ValueError`. -/
theorem explain_completion_no_input_checks :
    explain_completion "" "out" "tok" (fun _ _ _ => []) "tmpl"
      = (Except.ok [], 1)
    ∧ explain_completion "prompt" "" "tok" (fun _ _ _ => []) "tmpl"
      = (Except.ok [], 1)
    ∧ explain_completion "prompt" "out" "" (fun _ _ _ => []) "tmpl"
      = (Except.ok [], 1) :=
  ⟨rfl, rfl, rfl⟩

/-- C8: `LLMStrategyFactory.get_strategy` fails with the unknown-provider
`ValueError` for every identifier outside the registered set
{aleph-alpha, openai, gpt4all, cohere, ollama}, and returns the
corresponding provider client (instantiated with the collection name) for
every identifier in the set. -/
theorem get_strategy_spec (s tok c : String) :
    (s ∉ ["aleph-alpha", "openai", "gpt4all", "cohere", "ollama"] →
      get_strategy s tok c
        = Except.error (PyErr.valueError "Unknown Strategy Type"))
    ∧ (∀ p : LLMProvider, get_strategy (providerKey p) tok c
        = Except.ok ⟨p, c⟩) := by
  constructor
  · intro h
    simp only [List.mem_cons, List.not_mem_nil, or_false, not_or] at h
    obtain ⟨h1, h2, h3, h4, h5⟩ := h
    have e1 : ("aleph-alpha" == s) = false := beq_eq_false_iff_ne.mpr (Ne.symm h1)
    have e2 : ("openai" == s) = false := beq_eq_false_iff_ne.mpr (Ne.symm h2)
    have e3 : ("gpt4all" == s) = false := beq_eq_false_iff_ne.mpr (Ne.symm h3)
    have e4 : ("cohere" == s) = false := beq_eq_false_iff_ne.mpr (Ne.symm h4)
    have e5 : ("ollama" == s) = false := beq_eq_false_iff_ne.mpr (Ne.symm h5)
    unfold get_strategy strategies
    simp [List.find?, e1, e2, e3, e4, e5]
  · intro p; cases p <;> rfl

/-- Witness for C8 at one unregistered and one registered identifier. -/
theorem get_strategy_spec_witness :
    get_strategy "mistral" "tok" "col"
      = Except.error (PyErr.valueError "Unknown Strategy Type")
    ∧ get_strategy "aleph-alpha" "tok" "col"
      = Except.ok ⟨LLMProvider.aleph_alpha, "col"⟩ :=
  ⟨(get_strategy_spec "mistral" "tok" "col").1 (by decide),
   (get_strategy_spec "mistral" "tok" "col").2 LLMProvider.aleph_alpha⟩

/-- C9: for every item `(start, length, score)` of the provider response,
`explain_completion` computes the span `prompt[start : start + length]`
(the definition of `spanOf`), the span is a key of the returned mapping
exactly when it is not a substring of the template rendered with empty
content, and when the span occurs uniquely among the items it is mapped to
its score rounded to 3 decimal places. -/
theorem explain_completion_span_spec (prompt output tok template : String)
    (provider : String → String → String → List ExpItem)
    (it : ExpItem) (hmem : it ∈ provider prompt output tok) :
    explain_completion prompt output tok provider template
      = (Except.ok (explainLoop prompt template (provider prompt output tok) []), 1)
    ∧ ((dictGet (explainLoop prompt template (provider prompt output tok) [])
          (spanOf prompt it)).isSome
        ↔ ¬ ((spanOf prompt it).data <:+: template.data))
    ∧ (¬ ((spanOf prompt it).data <:+: template.data) →
        (∀ it2 ∈ provider prompt output tok,
            spanOf prompt it2 = spanOf prompt it → it2 = it) →
        dictGet (explainLoop prompt template (provider prompt output tok) [])
          (spanOf prompt it) = some (round3 it.score)) := by
  have hchar := explainLoop_dictGet prompt template (spanOf prompt it)
    (provider prompt output tok) []
  refine ⟨rfl, ?_, ?_⟩
  · constructor
    · intro hsome hinf
      rw [hchar] at hsome
      have hnone : lastKept prompt template (spanOf prompt it)
          (provider prompt output tok) = none :=
        lastKept_eq_none _ _ _ _ (fun y _ hy => hy.2 (hy.1 ▸ hinf))
      rw [hnone] at hsome
      simp [dictGet] at hsome
    · intro hinf
      rw [hchar]
      cases hl : lastKept prompt template (spanOf prompt it)
          (provider prompt output tok) with
      | some r => simp
      | none =>
          have hsome := lastKept_isSome prompt template (spanOf prompt it)
            (provider prompt output tok) it hmem ⟨rfl, hinf⟩
          rw [hl] at hsome
          simp at hsome
  · intro hinf huniq
    rw [hchar]
    rw [lastKept_of_unique prompt template (spanOf prompt it)
      (provider prompt output tok) it hmem ⟨rfl, hinf⟩
      (fun y hy hky => huniq y hy hky.1)]

/-- Witness for C9 at a one-item provider response. -/
theorem explain_completion_span_spec_witness :
    ((dictGet (explainLoop "ab" "zz" [⟨0, 1, (1:ℚ)⟩] [])
        (spanOf "ab" ⟨0, 1, (1:ℚ)⟩)).isSome
      ↔ ¬ ((spanOf "ab" ⟨0, 1, (1:ℚ)⟩).data <:+: ("zz" : String).data))
    ∧ dictGet (explainLoop "ab" "zz" [⟨0, 1, (1:ℚ)⟩] [])
        (spanOf "ab" ⟨0, 1, (1:ℚ)⟩) = some (round3 1) := by
  have h := explain_completion_span_spec "ab" "out" "tok" "zz"
    (fun _ _ _ => [⟨0, 1, (1:ℚ)⟩]) ⟨0, 1, (1:ℚ)⟩ (by simp)
  exact ⟨h.2.1, h.2.2 (by decide) (by intro it2 h2 _; simpa using h2)⟩

/-- C10: on the empty input text, `embedd_text_aleph_alpha` never reaches
the vector-store `add_texts` call: splitting yields the single empty
segment `[""]`, the leading-empty check pops it, and the trailing-empty
check indexes the last element of the now-empty list, so for every
non-empty separator the function aborts with an `IndexError` (not an
invalid-input `ValueError`), and for every separator it never completes
normally. -/
theorem embedd_text_empty_input (file_name seperator : String) :
    (seperator ≠ "" →
      embedd_text_aleph_alpha "" file_name seperator
        = Except.error (PyErr.indexError "list index out of range"))
    ∧ ∀ r, embedd_text_aleph_alpha "" file_name seperator ≠ Except.ok r := by
  have hidx : seperator ≠ "" →
      embedd_text_aleph_alpha "" file_name seperator
        = Except.error (PyErr.indexError "list index out of range") := by
    intro h
    unfold embedd_text_aleph_alpha pySplit
    rw [if_neg h, splitOn_empty_left]
    rfl
  refine ⟨hidx, fun r => ?_⟩
  by_cases h : seperator = ""
  · subst h
    unfold embedd_text_aleph_alpha pySplit
    simp
  · rw [hidx h]
    simp

/-- Witness for C10 at a concrete file name and separator. -/
theorem embedd_text_empty_input_witness :
    embedd_text_aleph_alpha "" "file" "###"
      = Except.error (PyErr.indexError "list index out of range")
    ∧ embedd_text_aleph_alpha "" "file" "###" ≠ Except.ok ([], []) :=
  ⟨(embedd_text_empty_input "file" "###").1 (by decide),
   (embedd_text_empty_input "file" "###").2 ([], [])⟩

end AgentSpec
